import Mathlib

/- Shallow embedding of src/src/economy.c (LumenClay).  Currency amounts
   (C double) are modelled as exact rationals; the fixed-capacity arrays
   with explicit counts become Lean lists; the int return value plus the
   out-parameter error message becomes a pair of the updated state and an
   optional error kind, with one kind per distinct failure site in the
   source.  C null-pointer guards, the wall-clock timestamp stored in
   history entries and the truncation of over-long names by snprintf have
   no counterpart in a pure model and are omitted. -/

def MAX_ITEMS : Nat := 32

def MAX_TRANSACTION_HISTORY : Nat := 64

def BANK_MIN_TRANSACTION : ℚ := 1

def BANK_MAX_TRANSACTION : ℚ := 10000

def BANK_MAX_DAILY_TOTAL : ℚ := 25000

def BANK_MAX_ITEM_QUANTITY : Nat := 999

/-- One audit-trail record (C struct TransactionEntry, minus the wall-clock
timestamp). -/
structure TransactionEntry where
  description : String
  amount : ℚ
  resulting_balance : ℚ
  deriving DecidableEq

/-- One stored-item slot of the items array in C struct Account. -/
structure Item where
  name : String
  quantity : Nat
  deriving DecidableEq

/-- C struct Account: items and history carry their counts as list length. -/
structure Account where
  owner : String
  balance : ℚ
  investment_balance : ℚ
  daily_total : ℚ
  items : List Item
  history : List TransactionEntry
  deriving DecidableEq

/-- C struct BankingService. -/
structure BankingService where
  name : String
  deposit_fee : ℚ
  withdrawal_fee : ℚ
  transfer_fee : ℚ
  investment_rate : ℚ
  daily_limit : ℚ
  deriving DecidableEq

/-- Error kinds, one per distinct snprintf failure site in the source. -/
inductive EconError where
  | belowMinimum
  | aboveMaximum
  | dailyLimitExceeded
  | feeRejected
  | insufficientFunds
  | investNotPositive
  | investInsufficient
  | investWithdrawNotPositive
  | investWithdrawInsufficient
  | invalidItemRequest
  | quantityLimit
  | vaultFull
  | totalQuantityLimit
  | itemNotFound
  | insufficientItems
  deriving DecidableEq

/-- C account_add_history: append an entry; when the history already holds
MAX_TRANSACTION_HISTORY entries, memmove drops the oldest entry first. -/
def account_add_history (account : Account) (description : String) (amount : ℚ) :
    Account :=
  let entry : TransactionEntry :=
    { description := description, amount := amount,
      resulting_balance := account.balance }
  if account.history.length < MAX_TRANSACTION_HISTORY then
    { account with history := account.history ++ [entry] }
  else
    { account with history := account.history.drop 1 ++ [entry] }

/-- C account_reset: set owner and initial balance (clamped at 0), clear
everything else. -/
def account_reset (owner : String) (initial_balance : ℚ) : Account :=
  { owner := owner
    balance := if initial_balance < 0 then 0 else initial_balance
    investment_balance := 0
    daily_total := 0
    items := []
    history := [] }

/-- C enforce_amount: per-transaction range gate. -/
def enforce_amount (amount : ℚ) : Option EconError :=
  if amount < BANK_MIN_TRANSACTION then some EconError.belowMinimum
  else if amount > BANK_MAX_TRANSACTION then some EconError.aboveMaximum
  else none

/-- C enforce_daily: daily-total gate against the configured limit, or the
default when the configured limit is not positive. -/
def enforce_daily (service : BankingService) (account : Account) (amount : ℚ) :
    Option EconError :=
  if account.daily_total + amount >
      (if service.daily_limit > 0 then service.daily_limit else BANK_MAX_DAILY_TOTAL)
  then some EconError.dailyLimitExceeded
  else none

/-- C apply_fee: no-op for a non-positive fee; otherwise subtract the fee,
rejecting (none) when the post-fee amount falls below the minimum.  The
service argument is only null-checked in C and is unused here. -/
def apply_fee (_service : BankingService) (amount fee : ℚ) : Option ℚ :=
  if fee ≤ 0 then some amount
  else if amount - fee < BANK_MIN_TRANSACTION then none
  else some (amount - fee)

/-- C service_deposit. -/
def service_deposit (service : BankingService) (account : Account) (amount : ℚ) :
    Account × Option EconError :=
  match enforce_amount amount with
  | some e => (account, some e)
  | none =>
    match enforce_daily service account amount with
    | some e => (account, some e)
    | none =>
      match apply_fee service amount service.deposit_fee with
      | none => (account, some EconError.feeRejected)
      | some amt =>
        (account_add_history
          { account with balance := account.balance + amt,
                         daily_total := account.daily_total + amount }
          "Deposit" amt, none)

/-- C service_withdraw. -/
def service_withdraw (service : BankingService) (account : Account) (amount : ℚ) :
    Account × Option EconError :=
  match enforce_amount amount with
  | some e => (account, some e)
  | none =>
    match enforce_daily service account amount with
    | some e => (account, some e)
    | none =>
      match apply_fee service amount service.withdrawal_fee with
      | none => (account, some EconError.feeRejected)
      | some amt =>
        if account.balance < amt then (account, some EconError.insufficientFunds)
        else
          (account_add_history
            { account with balance := account.balance - amt,
                           daily_total := account.daily_total + amount }
            "Withdrawal" (-amt), none)

/-- C service_transfer: src is debited the full amount, dst is credited the
post-fee amount, only the sender daily total moves. -/
def service_transfer (service : BankingService) (src dst : Account) (amount : ℚ) :
    (Account × Account) × Option EconError :=
  match enforce_amount amount with
  | some e => ((src, dst), some e)
  | none =>
    match enforce_daily service src amount with
    | some e => ((src, dst), some e)
    | none =>
      if src.balance < amount then ((src, dst), some EconError.insufficientFunds)
      else if service.transfer_fee > 0 ∧
          amount - service.transfer_fee < BANK_MIN_TRANSACTION then
        ((src, dst), some EconError.feeRejected)
      else
        (( account_add_history
             { src with balance := src.balance - amount,
                        daily_total := src.daily_total + amount }
             "Transfer Sent" (-amount),
           account_add_history
             { dst with balance := dst.balance +
                 (if service.transfer_fee > 0 then amount - service.transfer_fee
                  else amount) }
             "Transfer Received"
             (if service.transfer_fee > 0 then amount - service.transfer_fee
              else amount)), none)

/-- C service_invest: positivity and balance gates only, no range or daily
gate; the service argument is only null-checked in the source. -/
def service_invest (_service : BankingService) (account : Account) (amount : ℚ) :
    Account × Option EconError :=
  if amount ≤ 0 then (account, some EconError.investNotPositive)
  else if account.balance < amount then
    (account, some EconError.investInsufficient)
  else
    (account_add_history
      { account with balance := account.balance - amount,
                     investment_balance := account.investment_balance + amount }
      "Investment Deposit" (-amount), none)

/-- C service_apply_investment_yield: silently does nothing unless both the
investment balance and the rate are positive. -/
def service_apply_investment_yield (service : BankingService) (account : Account) :
    Account :=
  if account.investment_balance ≤ 0 ∨ service.investment_rate ≤ 0 then account
  else
    account_add_history
      { account with investment_balance :=
          account.investment_balance +
            account.investment_balance * service.investment_rate }
      "Investment Yield" (account.investment_balance * service.investment_rate)

/-- C service_withdraw_investment: the service argument is explicitly unused
in the source. -/
def service_withdraw_investment (_service : BankingService) (account : Account)
    (amount : ℚ) : Account × Option EconError :=
  if amount ≤ 0 then (account, some EconError.investWithdrawNotPositive)
  else if account.investment_balance < amount then
    (account, some EconError.investWithdrawInsufficient)
  else
    (account_add_history
      { account with investment_balance := account.investment_balance - amount,
                     balance := account.balance + amount }
      "Investment Withdrawal" amount, none)

/-- C account_find_item: first index whose name matches exactly. -/
def account_find_item (account : Account) (name : String) : Option Nat :=
  account.items.findIdx? (fun it => it.name == name)

/-- Quantity stored at a slot index (0 when out of range; the source only
reads valid indices). -/
def item_quantity_at (items : List Item) (index : Nat) : Nat :=
  match items, index with
  | [], _ => 0
  | it :: _, 0 => it.quantity
  | _ :: rest, n + 1 => item_quantity_at rest n

/-- In-place update of the quantity at a slot index. -/
def update_quantity_at (f : Nat → Nat) (items : List Item) (index : Nat) :
    List Item :=
  match items, index with
  | [], _ => []
  | it :: rest, 0 => { it with quantity := f it.quantity } :: rest
  | it :: rest, n + 1 => it :: update_quantity_at f rest n

/-- Tail of C service_store_item from the total-quantity check on: the slot
at index already exists (possibly freshly allocated with quantity 0). -/
def store_into_slot (account : Account) (index : Nat) (quantity : Nat) :
    Account × Option EconError :=
  if BANK_MAX_ITEM_QUANTITY < item_quantity_at account.items index + quantity then
    (account, some EconError.totalQuantityLimit)
  else
    (account_add_history
      { account with items :=
          update_quantity_at (fun q => q + quantity) account.items index }
      "Item Stored" (quantity : ℚ), none)

/-- C service_store_item: gates, lookup, possible fresh-slot allocation, then
the total-quantity check and the increment. -/
def service_store_item (account : Account) (name : String) (quantity : Nat) :
    Account × Option EconError :=
  if quantity = 0 then (account, some EconError.invalidItemRequest)
  else if BANK_MAX_ITEM_QUANTITY < quantity then
    (account, some EconError.quantityLimit)
  else
    match account_find_item account name with
    | some index => store_into_slot account index quantity
    | none =>
      if MAX_ITEMS ≤ account.items.length then
        (account, some EconError.vaultFull)
      else
        store_into_slot
          { account with items := account.items ++ [{ name := name, quantity := 0 }] }
          account.items.length quantity

/-- C service_retrieve_item: decrement and, when a slot reaches zero, remove
it with the shift-down loop (eraseIdx). -/
def service_retrieve_item (account : Account) (name : String) (quantity : Nat) :
    Account × Option EconError :=
  if quantity = 0 then (account, some EconError.invalidItemRequest)
  else
    match account_find_item account name with
    | none => (account, some EconError.itemNotFound)
    | some index =>
      if item_quantity_at account.items index < quantity then
        (account, some EconError.insufficientItems)
      else
        let account1 :=
          account_add_history
            { account with items :=
                update_quantity_at (fun q => q - quantity) account.items index }
            "Item Retrieved" (-(quantity : ℚ))
        if item_quantity_at account1.items index = 0 then
          ({ account1 with items := account1.items.eraseIdx index }, none)
        else (account1, none)

/-- C service_reset_daily. -/
def service_reset_daily (account : Account) : Account :=
  { account with daily_total := 0 }

/-- C service_init: the stored daily limit falls back to the default when the
given one is not positive. -/
def service_init (name : String)
    (deposit_fee withdrawal_fee transfer_fee investment_rate daily_limit : ℚ) :
    BankingService :=
  { name := name
    deposit_fee := deposit_fee
    withdrawal_fee := withdrawal_fee
    transfer_fee := transfer_fee
    investment_rate := investment_rate
    daily_limit := if daily_limit ≤ 0 then BANK_MAX_DAILY_TOTAL else daily_limit }

/-- Both money pools of an account are non-negative. -/
def AccountNonneg (account : Account) : Prop :=
  0 ≤ account.balance ∧ 0 ≤ account.investment_balance

/-- One successful operation applied to a tracked account: the account may
act as the target of any single-account operation or as either side of a
transfer, against an arbitrary service configuration and, for transfers, an
arbitrary other account. -/
inductive EconStep : Account → Account → Prop where
  | deposit (service : BankingService) (account : Account) (amount : ℚ)
      (h : (service_deposit service account amount).2 = none) :
      EconStep account (service_deposit service account amount).1
  | withdraw (service : BankingService) (account : Account) (amount : ℚ)
      (h : (service_withdraw service account amount).2 = none) :
      EconStep account (service_withdraw service account amount).1
  | transfer_sent (service : BankingService) (account other : Account) (amount : ℚ)
      (h : (service_transfer service account other amount).2 = none) :
      EconStep account (service_transfer service account other amount).1.1
  | transfer_received (service : BankingService) (account other : Account) (amount : ℚ)
      (h : (service_transfer service other account amount).2 = none) :
      EconStep account (service_transfer service other account amount).1.2
  | invest (service : BankingService) (account : Account) (amount : ℚ)
      (h : (service_invest service account amount).2 = none) :
      EconStep account (service_invest service account amount).1
  | yield (service : BankingService) (account : Account) :
      EconStep account (service_apply_investment_yield service account)
  | invest_withdraw (service : BankingService) (account : Account) (amount : ℚ)
      (h : (service_withdraw_investment service account amount).2 = none) :
      EconStep account (service_withdraw_investment service account amount).1
  | store (account : Account) (name : String) (quantity : Nat)
      (h : (service_store_item account name quantity).2 = none) :
      EconStep account (service_store_item account name quantity).1
  | retrieve (account : Account) (name : String) (quantity : Nat)
      (h : (service_retrieve_item account name quantity).2 = none) :
      EconStep account (service_retrieve_item account name quantity).1
  | reset_daily (account : Account) :
      EconStep account (service_reset_daily account)

/-- Reachability by a finite sequence of successful operations. -/
def EconReaches : Account → Account → Prop :=
  Relation.ReflTransGen EconStep

/-- Fixture: a fee-free service with a configured daily limit of 100. -/
def limService : BankingService :=
  { name := "Limit", deposit_fee := 0, withdrawal_fee := 0, transfer_fee := 0,
    investment_rate := 0, daily_limit := 100 }

/-- Fixture: a fresh account for the daily-limit scenario. -/
def limAcct : Account := account_reset "Limit" 0

/-- Fixture: a service with a deposit fee of 0.2 and a withdrawal fee of 5. -/
def feeService : BankingService :=
  { name := "Fees", deposit_fee := 1 / 5, withdrawal_fee := 5, transfer_fee := 0,
    investment_rate := 0, daily_limit := 0 }

/-- Fixture: an account with balance 100 for the fee scenarios. -/
def feeAcct : Account := account_reset "Fees" 100

/-- Fixture: a service with a tiny daily limit, to exercise that invest is
not subject to it. -/
def invService : BankingService :=
  { name := "Invest", deposit_fee := 0, withdrawal_fee := 0, transfer_fee := 0,
    investment_rate := 0, daily_limit := 1 }

/-- Fixture: a service with investment rate 0.1 for the round trip. -/
def roundService : BankingService :=
  { name := "Round", deposit_fee := 0, withdrawal_fee := 0, transfer_fee := 0,
    investment_rate := 1 / 10, daily_limit := 0 }

/-- Fixture: the round-trip starting account with balance 500. -/
def roundAcct : Account := account_reset "Round" 500

/-- Fixture: round-trip state after investing 100. -/
def roundInvested : Account := (service_invest roundService roundAcct 100).1

/-- Fixture: round-trip state after the yield application. -/
def roundYielded : Account := service_apply_investment_yield roundService roundInvested

/-- Fixture: round-trip state after withdrawing the investment of 110. -/
def roundFinal : Account := (service_withdraw_investment roundService roundYielded 110).1

/-- Fixture: a service with transfer fee 2 for the transfer witness. -/
def transService : BankingService :=
  { name := "Transfer", deposit_fee := 0, withdrawal_fee := 0, transfer_fee := 2,
    investment_rate := 0, daily_limit := 0 }

/-- Fixture: transfer sender with balance 100. -/
def transSrc : Account := account_reset "Sender" 100

/-- Fixture: transfer receiver with balance 5. -/
def transDst : Account := account_reset "Receiver" 5

/-- Fixture: an account already holding the maximum of 32 distinct items. -/
def vaultFullAccount : Account :=
  { owner := "Vault", balance := 0, investment_balance := 0, daily_total := 0,
    items := (List.range MAX_ITEMS).map
      (fun i => { name := "item" ++ toString i, quantity := 1 }),
    history := [] }

/-- Fixture: an account whose history is already at the 64-entry cap. -/
def fullHistoryAccount : Account :=
  { owner := "Full", balance := 0, investment_balance := 0, daily_total := 0,
    items := [],
    history := List.replicate MAX_TRANSACTION_HISTORY
      { description := "seed", amount := 0, resulting_balance := 0 } }

/-- Appending a history entry never changes the cash balance. -/
@[simp] theorem account_add_history_balance (a : Account) (d : String) (x : ℚ) :
    (account_add_history a d x).balance = a.balance := by
  simp only [account_add_history]
  split <;> rfl

/-- Appending a history entry never changes the investment balance. -/
@[simp] theorem account_add_history_investment (a : Account) (d : String) (x : ℚ) :
    (account_add_history a d x).investment_balance = a.investment_balance := by
  simp only [account_add_history]
  split <;> rfl

/-- Appending a history entry never changes the daily total. -/
@[simp] theorem account_add_history_daily (a : Account) (d : String) (x : ℚ) :
    (account_add_history a d x).daily_total = a.daily_total := by
  simp only [account_add_history]
  split <;> rfl

/-- Appending a history entry never changes the items. -/
@[simp] theorem account_add_history_items (a : Account) (d : String) (x : ℚ) :
    (account_add_history a d x).items = a.items := by
  simp only [account_add_history]
  split <;> rfl

/-- Appending a history entry never changes the owner. -/
@[simp] theorem account_add_history_owner (a : Account) (d : String) (x : ℚ) :
    (account_add_history a d x).owner = a.owner := by
  simp only [account_add_history]
  split <;> rfl

/-- The amount gate passes exactly on the closed range [minimum, maximum]. -/
theorem enforce_amount_none_iff (x : ℚ) :
    enforce_amount x = none ↔
      BANK_MIN_TRANSACTION ≤ x ∧ x ≤ BANK_MAX_TRANSACTION := by
  unfold enforce_amount
  split_ifs with h1 h2
  · exact iff_of_false (by simp) (fun h => absurd h.1 (not_le.mpr h1))
  · exact iff_of_false (by simp) (fun h => absurd h.2 (not_le.mpr h2))
  · exact iff_of_true rfl ⟨not_lt.mp h1, not_lt.mp h2⟩

/-- The amount gate only ever reports a range error. -/
theorem enforce_amount_some (x : ℚ) (e : EconError)
    (h : enforce_amount x = some e) :
    e = EconError.belowMinimum ∨ e = EconError.aboveMaximum := by
  unfold enforce_amount at h
  split_ifs at h
  · exact Or.inl (Option.some_injective _ h).symm
  · exact Or.inr (Option.some_injective _ h).symm

/-- The daily gate passes exactly when the projected total stays within the
effective limit. -/
theorem enforce_daily_none_iff (s : BankingService) (a : Account) (x : ℚ) :
    enforce_daily s a x = none ↔
      a.daily_total + x ≤
        (if s.daily_limit > 0 then s.daily_limit else BANK_MAX_DAILY_TOTAL) := by
  unfold enforce_daily
  by_cases h : a.daily_total + x >
      (if s.daily_limit > 0 then s.daily_limit else BANK_MAX_DAILY_TOTAL)
  · rw [if_pos h]
    exact iff_of_false (by simp) (not_le.mpr h)
  · rw [if_neg h]
    exact iff_of_true rfl (not_lt.mp h)

/-- The daily gate fails exactly when the projected total exceeds the
effective limit, and then reports the daily-limit error. -/
theorem enforce_daily_some_iff (s : BankingService) (a : Account) (x : ℚ) :
    enforce_daily s a x = some EconError.dailyLimitExceeded ↔
      a.daily_total + x >
        (if s.daily_limit > 0 then s.daily_limit else BANK_MAX_DAILY_TOTAL) := by
  unfold enforce_daily
  by_cases h : a.daily_total + x >
      (if s.daily_limit > 0 then s.daily_limit else BANK_MAX_DAILY_TOTAL)
  · rw [if_pos h]
    exact iff_of_true rfl h
  · rw [if_neg h]
    exact iff_of_false (by simp) h

/-- The daily gate only ever reports the daily-limit error. -/
theorem enforce_daily_some (s : BankingService) (a : Account) (x : ℚ)
    (e : EconError) (h : enforce_daily s a x = some e) :
    e = EconError.dailyLimitExceeded := by
  unfold enforce_daily at h
  by_cases hc : a.daily_total + x >
      (if s.daily_limit > 0 then s.daily_limit else BANK_MAX_DAILY_TOTAL)
  · rw [if_pos hc] at h
    exact (Option.some_injective _ h).symm
  · rw [if_neg hc] at h
    exact absurd h (by simp)

/-- A non-positive fee passes the amount through unchanged. -/
theorem apply_fee_nonpos (s : BankingService) (x fee : ℚ) (h : fee ≤ 0) :
    apply_fee s x fee = some x := by
  unfold apply_fee
  rw [if_pos h]

/-- The fee step rejects exactly when the fee is positive and the post-fee
amount falls below the minimum. -/
theorem apply_fee_none_iff (s : BankingService) (x fee : ℚ) :
    apply_fee s x fee = none ↔ 0 < fee ∧ x - fee < BANK_MIN_TRANSACTION := by
  unfold apply_fee
  split_ifs with h1 h2
  · exact iff_of_false (by simp) (fun h => absurd h.1 (not_lt.mpr h1))
  · exact iff_of_true rfl ⟨not_le.mp h1, h2⟩
  · exact iff_of_false (by simp) (fun h => absurd h.2 h2)

/-- A successful fee step keeps the amount at or above the minimum, provided
the input amount was. -/
theorem apply_fee_some_min (s : BankingService) (x fee amt : ℚ)
    (h : apply_fee s x fee = some amt) (hx : BANK_MIN_TRANSACTION ≤ x) :
    BANK_MIN_TRANSACTION ≤ amt := by
  unfold apply_fee at h
  split_ifs at h with h1 h2
  · rw [← Option.some_injective _ h]
    exact hx
  · rw [← Option.some_injective _ h]
    exact not_lt.mp h2

/-- Deposit rejected at the amount gate returns the account untouched. -/
theorem service_deposit_fail_amount (s : BankingService) (a : Account) (x : ℚ)
    (e : EconError) (h : enforce_amount x = some e) :
    service_deposit s a x = (a, some e) := by
  unfold service_deposit
  rw [h]

/-- Deposit rejected at the daily gate returns the account untouched. -/
theorem service_deposit_fail_daily (s : BankingService) (a : Account) (x : ℚ)
    (e : EconError) (h1 : enforce_amount x = none)
    (h2 : enforce_daily s a x = some e) :
    service_deposit s a x = (a, some e) := by
  unfold service_deposit
  rw [h1, h2]

/-- Deposit rejected at the fee step returns the account untouched. -/
theorem service_deposit_fail_fee (s : BankingService) (a : Account) (x : ℚ)
    (h1 : enforce_amount x = none) (h2 : enforce_daily s a x = none)
    (h3 : apply_fee s x s.deposit_fee = none) :
    service_deposit s a x = (a, some EconError.feeRejected) := by
  unfold service_deposit
  rw [h1, h2, h3]

/-- Successful deposit: the exact final state. -/
theorem service_deposit_success (s : BankingService) (a : Account) (x amt : ℚ)
    (h1 : enforce_amount x = none) (h2 : enforce_daily s a x = none)
    (h3 : apply_fee s x s.deposit_fee = some amt) :
    service_deposit s a x =
      (account_add_history
        { a with balance := a.balance + amt, daily_total := a.daily_total + x }
        "Deposit" amt, none) := by
  unfold service_deposit
  rw [h1, h2, h3]

/-- Withdrawal rejected at the amount gate returns the account untouched. -/
theorem service_withdraw_fail_amount (s : BankingService) (a : Account) (x : ℚ)
    (e : EconError) (h : enforce_amount x = some e) :
    service_withdraw s a x = (a, some e) := by
  unfold service_withdraw
  rw [h]

/-- Withdrawal rejected at the daily gate returns the account untouched. -/
theorem service_withdraw_fail_daily (s : BankingService) (a : Account) (x : ℚ)
    (e : EconError) (h1 : enforce_amount x = none)
    (h2 : enforce_daily s a x = some e) :
    service_withdraw s a x = (a, some e) := by
  unfold service_withdraw
  rw [h1, h2]

/-- Withdrawal rejected at the fee step returns the account untouched. -/
theorem service_withdraw_fail_fee (s : BankingService) (a : Account) (x : ℚ)
    (h1 : enforce_amount x = none) (h2 : enforce_daily s a x = none)
    (h3 : apply_fee s x s.withdrawal_fee = none) :
    service_withdraw s a x = (a, some EconError.feeRejected) := by
  unfold service_withdraw
  rw [h1, h2, h3]

/-- Withdrawal rejected for insufficient balance returns the account
untouched. -/
theorem service_withdraw_fail_balance (s : BankingService) (a : Account)
    (x amt : ℚ) (h1 : enforce_amount x = none) (h2 : enforce_daily s a x = none)
    (h3 : apply_fee s x s.withdrawal_fee = some amt) (h4 : a.balance < amt) :
    service_withdraw s a x = (a, some EconError.insufficientFunds) := by
  unfold service_withdraw
  rw [h1, h2, h3]
  dsimp only
  rw [if_pos h4]

/-- Successful withdrawal: the exact final state. -/
theorem service_withdraw_success (s : BankingService) (a : Account) (x amt : ℚ)
    (h1 : enforce_amount x = none) (h2 : enforce_daily s a x = none)
    (h3 : apply_fee s x s.withdrawal_fee = some amt) (h4 : ¬a.balance < amt) :
    service_withdraw s a x =
      (account_add_history
        { a with balance := a.balance - amt, daily_total := a.daily_total + x }
        "Withdrawal" (-amt), none) := by
  unfold service_withdraw
  rw [h1, h2, h3]
  dsimp only
  rw [if_neg h4]

/-- Transfer rejected at the amount gate returns both accounts untouched. -/
theorem service_transfer_fail_amount (s : BankingService) (src dst : Account)
    (x : ℚ) (e : EconError) (h : enforce_amount x = some e) :
    service_transfer s src dst x = ((src, dst), some e) := by
  unfold service_transfer
  rw [h]

/-- Transfer rejected at the sender daily gate returns both accounts
untouched. -/
theorem service_transfer_fail_daily (s : BankingService) (src dst : Account)
    (x : ℚ) (e : EconError) (h1 : enforce_amount x = none)
    (h2 : enforce_daily s src x = some e) :
    service_transfer s src dst x = ((src, dst), some e) := by
  unfold service_transfer
  rw [h1, h2]

/-- Transfer rejected for insufficient sender balance returns both accounts
untouched. -/
theorem service_transfer_fail_balance (s : BankingService) (src dst : Account)
    (x : ℚ) (h1 : enforce_amount x = none) (h2 : enforce_daily s src x = none)
    (h3 : src.balance < x) :
    service_transfer s src dst x = ((src, dst), some EconError.insufficientFunds) := by
  unfold service_transfer
  rw [h1, h2]
  dsimp only
  rw [if_pos h3]

/-- Transfer rejected because the amount is too small after the fee returns
both accounts untouched. -/
theorem service_transfer_fail_fee (s : BankingService) (src dst : Account)
    (x : ℚ) (h1 : enforce_amount x = none) (h2 : enforce_daily s src x = none)
    (h3 : ¬src.balance < x)
    (h4 : s.transfer_fee > 0 ∧ x - s.transfer_fee < BANK_MIN_TRANSACTION) :
    service_transfer s src dst x = ((src, dst), some EconError.feeRejected) := by
  unfold service_transfer
  rw [h1, h2]
  dsimp only
  rw [if_neg h3, if_pos h4]

/-- Successful transfer: the exact final pair of states. -/
theorem service_transfer_success (s : BankingService) (src dst : Account)
    (x : ℚ) (h1 : enforce_amount x = none) (h2 : enforce_daily s src x = none)
    (h3 : ¬src.balance < x)
    (h4 : ¬(s.transfer_fee > 0 ∧ x - s.transfer_fee < BANK_MIN_TRANSACTION)) :
    service_transfer s src dst x =
      (( account_add_history
           { src with balance := src.balance - x,
                      daily_total := src.daily_total + x }
           "Transfer Sent" (-x),
         account_add_history
           { dst with balance := dst.balance +
               (if s.transfer_fee > 0 then x - s.transfer_fee else x) }
           "Transfer Received"
           (if s.transfer_fee > 0 then x - s.transfer_fee else x)), none) := by
  unfold service_transfer
  rw [h1, h2]
  dsimp only
  rw [if_neg h3, if_neg h4]

/-- The slot-update tail of store never changes the cash balance. -/
theorem store_into_slot_balance (a : Account) (i q : Nat) :
    (store_into_slot a i q).1.balance = a.balance := by
  unfold store_into_slot
  split
  · rfl
  · simp [account_add_history_balance]

/-- The slot-update tail of store never changes the investment balance. -/
theorem store_into_slot_investment (a : Account) (i q : Nat) :
    (store_into_slot a i q).1.investment_balance = a.investment_balance := by
  unfold store_into_slot
  split
  · rfl
  · simp [account_add_history_investment]

/-- The slot-update tail of store never changes the daily total. -/
theorem store_into_slot_daily (a : Account) (i q : Nat) :
    (store_into_slot a i q).1.daily_total = a.daily_total := by
  unfold store_into_slot
  split
  · rfl
  · simp [account_add_history_daily]

/-- Storing an item never changes the cash balance, on any path. -/
theorem service_store_item_balance (a : Account) (n : String) (q : Nat) :
    (service_store_item a n q).1.balance = a.balance := by
  unfold service_store_item
  split
  · rfl
  · split
    · rfl
    · split
      · exact store_into_slot_balance _ _ _
      · split
        · rfl
        · exact store_into_slot_balance _ _ _

/-- Storing an item never changes the investment balance, on any path. -/
theorem service_store_item_investment (a : Account) (n : String) (q : Nat) :
    (service_store_item a n q).1.investment_balance = a.investment_balance := by
  unfold service_store_item
  split
  · rfl
  · split
    · rfl
    · split
      · exact store_into_slot_investment _ _ _
      · split
        · rfl
        · exact store_into_slot_investment _ _ _

/-- Storing an item never changes the daily total, on any path. -/
theorem service_store_item_daily (a : Account) (n : String) (q : Nat) :
    (service_store_item a n q).1.daily_total = a.daily_total := by
  unfold service_store_item
  split
  · rfl
  · split
    · rfl
    · split
      · exact store_into_slot_daily _ _ _
      · split
        · rfl
        · exact store_into_slot_daily _ _ _

/-- Retrieving an item never changes the cash balance, on any path. -/
theorem service_retrieve_item_balance (a : Account) (n : String) (q : Nat) :
    (service_retrieve_item a n q).1.balance = a.balance := by
  unfold service_retrieve_item
  split
  · rfl
  · split
    · rfl
    · split
      · rfl
      · dsimp only
        split
        · simp [account_add_history_balance]
        · simp [account_add_history_balance]

/-- Retrieving an item never changes the investment balance, on any path. -/
theorem service_retrieve_item_investment (a : Account) (n : String) (q : Nat) :
    (service_retrieve_item a n q).1.investment_balance = a.investment_balance := by
  unfold service_retrieve_item
  split
  · rfl
  · split
    · rfl
    · split
      · rfl
      · dsimp only
        split
        · simp [account_add_history_investment]
        · simp [account_add_history_investment]

/-- Retrieving an item never changes the daily total, on any path. -/
theorem service_retrieve_item_daily (a : Account) (n : String) (q : Nat) :
    (service_retrieve_item a n q).1.daily_total = a.daily_total := by
  unfold service_retrieve_item
  split
  · rfl
  · split
    · rfl
    · split
      · rfl
      · dsimp only
        split
        · simp [account_add_history_daily]
        · simp [account_add_history_daily]

/-- Investing never changes the daily total, on any path. -/
theorem service_invest_daily (s : BankingService) (a : Account) (x : ℚ) :
    (service_invest s a x).1.daily_total = a.daily_total := by
  unfold service_invest
  split_ifs with h1 h2
  · rfl
  · rfl
  · simp [account_add_history_daily]

/-- Withdrawing an investment never changes the daily total, on any path. -/
theorem service_withdraw_investment_daily (s : BankingService) (a : Account)
    (x : ℚ) :
    (service_withdraw_investment s a x).1.daily_total = a.daily_total := by
  unfold service_withdraw_investment
  split_ifs with h1 h2
  · rfl
  · rfl
  · simp [account_add_history_daily]

/-- Applying the yield never changes the daily total. -/
theorem service_apply_investment_yield_daily (s : BankingService) (a : Account) :
    (service_apply_investment_yield s a).daily_total = a.daily_total := by
  unfold service_apply_investment_yield
  split_ifs with h1
  · rfl
  · simp [account_add_history_daily]

/-- A freshly reset account has non-negative pools. -/
theorem account_reset_nonneg (owner : String) (init : ℚ) :
    AccountNonneg (account_reset owner init) := by
  constructor
  · show (0 : ℚ) ≤ if init < 0 then 0 else init
    split_ifs with h
    · exact le_refl 0
    · exact not_lt.mp h
  · exact le_refl 0

/-- Deposits preserve non-negative pools (also on failure). -/
theorem nonneg_service_deposit (s : BankingService) (a : Account) (x : ℚ)
    (h : AccountNonneg a) : AccountNonneg (service_deposit s a x).1 := by
  cases hEA : enforce_amount x with
  | some e =>
    rw [service_deposit_fail_amount s a x e hEA]
    exact h
  | none =>
    cases hED : enforce_daily s a x with
    | some e =>
      rw [service_deposit_fail_daily s a x e hEA hED]
      exact h
    | none =>
      cases hF : apply_fee s x s.deposit_fee with
      | none =>
        rw [service_deposit_fail_fee s a x hEA hED hF]
        exact h
      | some amt =>
        rw [service_deposit_success s a x amt hEA hED hF]
        have hmin : BANK_MIN_TRANSACTION ≤ amt :=
          apply_fee_some_min s x s.deposit_fee amt hF
            ((enforce_amount_none_iff x).mp hEA).1
        have hmin1 : (1 : ℚ) ≤ amt := hmin
        constructor
        · rw [account_add_history_balance]
          show 0 ≤ a.balance + amt
          linarith [h.1]
        · rw [account_add_history_investment]
          exact h.2

/-- Withdrawals preserve non-negative pools (also on failure). -/
theorem nonneg_service_withdraw (s : BankingService) (a : Account) (x : ℚ)
    (h : AccountNonneg a) : AccountNonneg (service_withdraw s a x).1 := by
  cases hEA : enforce_amount x with
  | some e =>
    rw [service_withdraw_fail_amount s a x e hEA]
    exact h
  | none =>
    cases hED : enforce_daily s a x with
    | some e =>
      rw [service_withdraw_fail_daily s a x e hEA hED]
      exact h
    | none =>
      cases hF : apply_fee s x s.withdrawal_fee with
      | none =>
        rw [service_withdraw_fail_fee s a x hEA hED hF]
        exact h
      | some amt =>
        by_cases hb : a.balance < amt
        · rw [service_withdraw_fail_balance s a x amt hEA hED hF hb]
          exact h
        · rw [service_withdraw_success s a x amt hEA hED hF hb]
          constructor
          · rw [account_add_history_balance]
            show 0 ≤ a.balance - amt
            linarith [not_lt.mp hb]
          · rw [account_add_history_investment]
            exact h.2

/-- Transfers preserve non-negative pools of the sender (also on failure). -/
theorem nonneg_service_transfer_src (s : BankingService) (src dst : Account)
    (x : ℚ) (h : AccountNonneg src) :
    AccountNonneg (service_transfer s src dst x).1.1 := by
  cases hEA : enforce_amount x with
  | some e =>
    rw [service_transfer_fail_amount s src dst x e hEA]
    exact h
  | none =>
    cases hED : enforce_daily s src x with
    | some e =>
      rw [service_transfer_fail_daily s src dst x e hEA hED]
      exact h
    | none =>
      by_cases hb : src.balance < x
      · rw [service_transfer_fail_balance s src dst x hEA hED hb]
        exact h
      · by_cases hfee : s.transfer_fee > 0 ∧ x - s.transfer_fee < BANK_MIN_TRANSACTION
        · rw [service_transfer_fail_fee s src dst x hEA hED hb hfee]
          exact h
        · rw [service_transfer_success s src dst x hEA hED hb hfee]
          constructor
          · rw [account_add_history_balance]
            show 0 ≤ src.balance - x
            linarith [not_lt.mp hb]
          · rw [account_add_history_investment]
            exact h.2

/-- Transfers preserve non-negative pools of the receiver (also on failure). -/
theorem nonneg_service_transfer_dst (s : BankingService) (src dst : Account)
    (x : ℚ) (h : AccountNonneg dst) :
    AccountNonneg (service_transfer s src dst x).1.2 := by
  cases hEA : enforce_amount x with
  | some e =>
    rw [service_transfer_fail_amount s src dst x e hEA]
    exact h
  | none =>
    cases hED : enforce_daily s src x with
    | some e =>
      rw [service_transfer_fail_daily s src dst x e hEA hED]
      exact h
    | none =>
      by_cases hb : src.balance < x
      · rw [service_transfer_fail_balance s src dst x hEA hED hb]
        exact h
      · by_cases hfee : s.transfer_fee > 0 ∧ x - s.transfer_fee < BANK_MIN_TRANSACTION
        · rw [service_transfer_fail_fee s src dst x hEA hED hb hfee]
          exact h
        · rw [service_transfer_success s src dst x hEA hED hb hfee]
          have hx : (1 : ℚ) ≤ x := ((enforce_amount_none_iff x).mp hEA).1
          constructor
          · rw [account_add_history_balance]
            show 0 ≤ dst.balance +
              (if s.transfer_fee > 0 then x - s.transfer_fee else x)
            split_ifs with hf
            · have : ¬x - s.transfer_fee < BANK_MIN_TRANSACTION := by
                intro hlt
                exact hfee ⟨hf, hlt⟩
              have h1 : (1 : ℚ) ≤ x - s.transfer_fee := not_lt.mp this
              linarith [h.1]
            · linarith [h.1]
          · rw [account_add_history_investment]
            exact h.2

/-- Investing preserves non-negative pools (also on failure). -/
theorem nonneg_service_invest (s : BankingService) (a : Account) (x : ℚ)
    (h : AccountNonneg a) : AccountNonneg (service_invest s a x).1 := by
  unfold service_invest
  split_ifs with h1 h2
  · exact h
  · exact h
  · constructor
    · rw [account_add_history_balance]
      show 0 ≤ a.balance - x
      linarith [not_lt.mp h2]
    · rw [account_add_history_investment]
      show 0 ≤ a.investment_balance + x
      linarith [h.2, not_le.mp h1]

/-- The yield application preserves non-negative pools. -/
theorem nonneg_service_apply_investment_yield (s : BankingService) (a : Account)
    (h : AccountNonneg a) :
    AccountNonneg (service_apply_investment_yield s a) := by
  unfold service_apply_investment_yield
  split_ifs with h1
  · exact h
  · push_neg at h1
    constructor
    · rw [account_add_history_balance]
      exact h.1
    · rw [account_add_history_investment]
      show 0 ≤ a.investment_balance + a.investment_balance * s.investment_rate
      have := mul_nonneg (le_of_lt h1.1) (le_of_lt h1.2)
      linarith [h.2]

/-- Withdrawing an investment preserves non-negative pools (also on
failure). -/
theorem nonneg_service_withdraw_investment (s : BankingService) (a : Account)
    (x : ℚ) (h : AccountNonneg a) :
    AccountNonneg (service_withdraw_investment s a x).1 := by
  unfold service_withdraw_investment
  split_ifs with h1 h2
  · exact h
  · exact h
  · constructor
    · rw [account_add_history_balance]
      show 0 ≤ a.balance + x
      linarith [h.1, not_le.mp h1]
    · rw [account_add_history_investment]
      show 0 ≤ a.investment_balance - x
      linarith [not_lt.mp h2]

/-- Item storage preserves non-negative pools. -/
theorem nonneg_service_store_item (a : Account) (n : String) (q : Nat)
    (h : AccountNonneg a) : AccountNonneg (service_store_item a n q).1 := by
  constructor
  · rw [service_store_item_balance]
    exact h.1
  · rw [service_store_item_investment]
    exact h.2

/-- Item retrieval preserves non-negative pools. -/
theorem nonneg_service_retrieve_item (a : Account) (n : String) (q : Nat)
    (h : AccountNonneg a) : AccountNonneg (service_retrieve_item a n q).1 := by
  constructor
  · rw [service_retrieve_item_balance]
    exact h.1
  · rw [service_retrieve_item_investment]
    exact h.2

/-- The daily reset preserves non-negative pools. -/
theorem nonneg_service_reset_daily (a : Account) (h : AccountNonneg a) :
    AccountNonneg (service_reset_daily a) := h

/-- Every single successful step preserves non-negative pools. -/
theorem nonneg_econ_step (a b : Account) (hstep : EconStep a b)
    (h : AccountNonneg a) : AccountNonneg b := by
  cases hstep with
  | deposit s a x hs => exact nonneg_service_deposit s a x h
  | withdraw s a x hs => exact nonneg_service_withdraw s a x h
  | transfer_sent s a other x hs => exact nonneg_service_transfer_src s a other x h
  | transfer_received s a other x hs =>
    exact nonneg_service_transfer_dst s other a x h
  | invest s a x hs => exact nonneg_service_invest s a x h
  | yield s a => exact nonneg_service_apply_investment_yield s a h
  | invest_withdraw s a x hs => exact nonneg_service_withdraw_investment s a x h
  | store a n q hs => exact nonneg_service_store_item a n q h
  | retrieve a n q hs => exact nonneg_service_retrieve_item a n q h
  | reset_daily a => exact nonneg_service_reset_daily a h

/-- C1: starting from any account created by account_reset, after any finite
sequence of successful operations (deposit, withdraw, transfer in either
role, invest, yield application, investment withdrawal, item storage, item
retrieval, daily reset) the balance and the investment balance are
non-negative after each step. -/
theorem claim_C1 (owner : String) (init : ℚ) (a : Account)
    (h : EconReaches (account_reset owner init) a) :
    0 ≤ a.balance ∧ 0 ≤ a.investment_balance := by
  have h' : Relation.ReflTransGen EconStep (account_reset owner init) a := h
  clear h
  have hn : AccountNonneg a := by
    induction h' with
    | refl => exact account_reset_nonneg owner init
    | tail hr hstep ih => exact nonneg_econ_step _ _ hstep ih
  exact hn

theorem claim_C1_witness :
    0 ≤ (account_reset "Hero" 500).balance ∧
      0 ≤ (account_reset "Hero" 500).investment_balance :=
  claim_C1 "Hero" 500 (account_reset "Hero" 500) Relation.ReflTransGen.refl

/-- C2: a successful transfer debits the sender by the full requested
amount, credits the receiver with the post-fee amount (the full amount when
the fee is non-positive), raises only the sender daily total by the full
amount, and so conserves the combined balance minus exactly the fee (exact
conservation when the fee is non-positive). -/
theorem claim_C2 (s : BankingService) (src dst : Account) (x : ℚ)
    (h : (service_transfer s src dst x).2 = none) :
    (service_transfer s src dst x).1.1.balance = src.balance - x ∧
    (service_transfer s src dst x).1.2.balance =
      dst.balance + (if s.transfer_fee > 0 then x - s.transfer_fee else x) ∧
    (service_transfer s src dst x).1.1.daily_total = src.daily_total + x ∧
    (service_transfer s src dst x).1.2.daily_total = dst.daily_total ∧
    (service_transfer s src dst x).1.1.balance +
        (service_transfer s src dst x).1.2.balance =
      src.balance + dst.balance -
        (if s.transfer_fee > 0 then s.transfer_fee else 0) := by
  cases hEA : enforce_amount x with
  | some e =>
    rw [service_transfer_fail_amount s src dst x e hEA] at h
    simp at h
  | none =>
    cases hED : enforce_daily s src x with
    | some e =>
      rw [service_transfer_fail_daily s src dst x e hEA hED] at h
      simp at h
    | none =>
      by_cases hb : src.balance < x
      · rw [service_transfer_fail_balance s src dst x hEA hED hb] at h
        simp at h
      · by_cases hfee : s.transfer_fee > 0 ∧
            x - s.transfer_fee < BANK_MIN_TRANSACTION
        · rw [service_transfer_fail_fee s src dst x hEA hED hb hfee] at h
          simp at h
        · rw [service_transfer_success s src dst x hEA hED hb hfee]
          refine ⟨by simp [account_add_history_balance],
            by simp [account_add_history_balance],
            by simp [account_add_history_daily],
            by simp [account_add_history_daily], ?_⟩
          dsimp only
          rw [account_add_history_balance, account_add_history_balance]
          show src.balance - x +
              (dst.balance + (if s.transfer_fee > 0 then x - s.transfer_fee else x)) = _
          split_ifs with hf <;> ring

theorem claim_C2_witness :
    (service_transfer transService transSrc transDst 10).1.1.balance =
      transSrc.balance - 10 ∧
    (service_transfer transService transSrc transDst 10).1.2.balance =
      transDst.balance +
        (if transService.transfer_fee > 0 then 10 - transService.transfer_fee
         else 10) ∧
    (service_transfer transService transSrc transDst 10).1.1.daily_total =
      transSrc.daily_total + 10 ∧
    (service_transfer transService transSrc transDst 10).1.2.daily_total =
      transDst.daily_total ∧
    (service_transfer transService transSrc transDst 10).1.1.balance +
        (service_transfer transService transSrc transDst 10).1.2.balance =
      transSrc.balance + transDst.balance -
        (if transService.transfer_fee > 0 then transService.transfer_fee else 0) :=
  claim_C2 transService transSrc transDst 10 (by
    norm_num [service_transfer, enforce_amount, enforce_daily,
      BANK_MIN_TRANSACTION, BANK_MAX_TRANSACTION, BANK_MAX_DAILY_TOTAL,
      transService, transSrc, transDst, account_reset])

/-- The quantity of a freshly appended slot is the appended quantity. -/
theorem item_quantity_at_append (l : List Item) (it : Item) :
    item_quantity_at (l ++ [it]) l.length = it.quantity := by
  induction l with
  | nil => rfl
  | cons hd tl ih => exact ih

/-- Updating the quantity of a freshly appended slot rewrites just that
slot. -/
theorem update_quantity_at_append (f : Nat → Nat) (l : List Item) (it : Item) :
    update_quantity_at f (l ++ [it]) l.length =
      l ++ [{ it with quantity := f it.quantity }] := by
  induction l with
  | nil => rfl
  | cons hd tl ih =>
    show hd :: update_quantity_at f (tl ++ [it]) tl.length =
      hd :: (tl ++ [{ it with quantity := f it.quantity }])
    rw [ih]

/-- A failing slot-update tail leaves the account untouched. -/
theorem store_into_slot_fail_unchanged (a : Account) (i q : Nat)
    (h : (store_into_slot a i q).2 ≠ none) : (store_into_slot a i q).1 = a := by
  unfold store_into_slot at h ⊢
  split_ifs at h ⊢ with h1
  · rfl
  · exact absurd rfl h

/-- A failing deposit leaves the account untouched. -/
theorem service_deposit_fail_unchanged (s : BankingService) (a : Account) (x : ℚ)
    (h : (service_deposit s a x).2 ≠ none) : (service_deposit s a x).1 = a := by
  cases hEA : enforce_amount x with
  | some e => rw [service_deposit_fail_amount s a x e hEA]
  | none =>
    cases hED : enforce_daily s a x with
    | some e => rw [service_deposit_fail_daily s a x e hEA hED]
    | none =>
      cases hF : apply_fee s x s.deposit_fee with
      | none => rw [service_deposit_fail_fee s a x hEA hED hF]
      | some amt =>
        rw [service_deposit_success s a x amt hEA hED hF] at h
        exact absurd rfl h

/-- A failing withdrawal leaves the account untouched. -/
theorem service_withdraw_fail_unchanged (s : BankingService) (a : Account) (x : ℚ)
    (h : (service_withdraw s a x).2 ≠ none) : (service_withdraw s a x).1 = a := by
  cases hEA : enforce_amount x with
  | some e => rw [service_withdraw_fail_amount s a x e hEA]
  | none =>
    cases hED : enforce_daily s a x with
    | some e => rw [service_withdraw_fail_daily s a x e hEA hED]
    | none =>
      cases hF : apply_fee s x s.withdrawal_fee with
      | none => rw [service_withdraw_fail_fee s a x hEA hED hF]
      | some amt =>
        by_cases hb : a.balance < amt
        · rw [service_withdraw_fail_balance s a x amt hEA hED hF hb]
        · rw [service_withdraw_success s a x amt hEA hED hF hb] at h
          exact absurd rfl h

/-- A failing transfer leaves both accounts untouched. -/
theorem service_transfer_fail_unchanged (s : BankingService) (src dst : Account)
    (x : ℚ) (h : (service_transfer s src dst x).2 ≠ none) :
    (service_transfer s src dst x).1 = (src, dst) := by
  cases hEA : enforce_amount x with
  | some e => rw [service_transfer_fail_amount s src dst x e hEA]
  | none =>
    cases hED : enforce_daily s src x with
    | some e => rw [service_transfer_fail_daily s src dst x e hEA hED]
    | none =>
      by_cases hb : src.balance < x
      · rw [service_transfer_fail_balance s src dst x hEA hED hb]
      · by_cases hfee : s.transfer_fee > 0 ∧
            x - s.transfer_fee < BANK_MIN_TRANSACTION
        · rw [service_transfer_fail_fee s src dst x hEA hED hb hfee]
        · rw [service_transfer_success s src dst x hEA hED hb hfee] at h
          exact absurd rfl h

/-- A failing investment leaves the account untouched. -/
theorem service_invest_fail_unchanged (s : BankingService) (a : Account) (x : ℚ)
    (h : (service_invest s a x).2 ≠ none) : (service_invest s a x).1 = a := by
  unfold service_invest at h ⊢
  split_ifs at h ⊢ with h1 h2
  · rfl
  · rfl
  · exact absurd rfl h

/-- A failing investment withdrawal leaves the account untouched. -/
theorem service_withdraw_investment_fail_unchanged (s : BankingService)
    (a : Account) (x : ℚ)
    (h : (service_withdraw_investment s a x).2 ≠ none) :
    (service_withdraw_investment s a x).1 = a := by
  unfold service_withdraw_investment at h ⊢
  split_ifs at h ⊢ with h1 h2
  · rfl
  · rfl
  · exact absurd rfl h

/-- A failing item store leaves the account untouched: the fresh-slot
allocation can never be followed by a total-quantity failure, because a
fresh slot starts at quantity 0 and the requested quantity already passed
the per-item cap. -/
theorem service_store_item_fail_unchanged (a : Account) (n : String) (q : Nat)
    (h : (service_store_item a n q).2 ≠ none) :
    (service_store_item a n q).1 = a := by
  unfold service_store_item at h ⊢
  cases hf : account_find_item a n with
  | some i =>
    rw [hf] at h
    dsimp only at h ⊢
    split_ifs at h ⊢ with h1 h2
    · rfl
    · rfl
    · exact store_into_slot_fail_unchanged a i q h
  | none =>
    rw [hf] at h
    dsimp only at h ⊢
    split_ifs at h ⊢ with h1 h2 h3
    · rfl
    · rfl
    · rfl
    · exfalso
      apply h
      unfold store_into_slot
      rw [item_quantity_at_append, if_neg]
      have h2n : ¬(999 < q) := h2
      show ¬(999 < 0 + q)
      omega

/-- A failing item retrieval leaves the account untouched. -/
theorem service_retrieve_item_fail_unchanged (a : Account) (n : String) (q : Nat)
    (h : (service_retrieve_item a n q).2 ≠ none) :
    (service_retrieve_item a n q).1 = a := by
  unfold service_retrieve_item at h ⊢
  cases hf : account_find_item a n with
  | none =>
    rw [hf] at h
    dsimp only at h ⊢
    split_ifs at h ⊢ with h1
    · rfl
    · rfl
  | some i =>
    rw [hf] at h
    dsimp only at h ⊢
    split_ifs at h ⊢ with h1 h2 h3
    · rfl
    · rfl
    · exact absurd rfl h
    · exact absurd rfl h

/-- C3: every fallible operation that returns failure leaves the involved
account(s) completely unchanged (balances, daily total, items and history),
including the fresh-slot path of item storage; in particular storing a 33rd
distinct item fails with the vault-full error and leaves the 32 prior items
untouched. -/
theorem claim_C3 (s : BankingService) (a b : Account) (x : ℚ) (n : String)
    (q : Nat) :
    ((service_deposit s a x).2 ≠ none → (service_deposit s a x).1 = a) ∧
    ((service_withdraw s a x).2 ≠ none → (service_withdraw s a x).1 = a) ∧
    ((service_transfer s a b x).2 ≠ none → (service_transfer s a b x).1 = (a, b)) ∧
    ((service_invest s a x).2 ≠ none → (service_invest s a x).1 = a) ∧
    ((service_withdraw_investment s a x).2 ≠ none →
      (service_withdraw_investment s a x).1 = a) ∧
    ((service_store_item a n q).2 ≠ none → (service_store_item a n q).1 = a) ∧
    ((service_retrieve_item a n q).2 ≠ none → (service_retrieve_item a n q).1 = a) ∧
    (service_store_item vaultFullAccount "Fresh Relic" 1).2 =
      some EconError.vaultFull ∧
    (service_store_item vaultFullAccount "Fresh Relic" 1).1 = vaultFullAccount :=
  ⟨service_deposit_fail_unchanged s a x,
   service_withdraw_fail_unchanged s a x,
   service_transfer_fail_unchanged s a b x,
   service_invest_fail_unchanged s a x,
   service_withdraw_investment_fail_unchanged s a x,
   service_store_item_fail_unchanged a n q,
   service_retrieve_item_fail_unchanged a n q,
   by decide, by decide⟩

theorem claim_C3_witness :
    (service_deposit limService limAcct 0).1 = limAcct :=
  (claim_C3 limService limAcct limAcct 0 "w" 1).1 (by
    norm_num [service_deposit, enforce_amount, BANK_MIN_TRANSACTION]
    simp)

/-- Storing a brand-new item that passed the earlier gates always succeeds:
the fresh slot starts at quantity 0, so the total-quantity check cannot
fire. -/
theorem service_store_item_new_success (a : Account) (n : String) (q : Nat)
    (hf : account_find_item a n = none) (hq1 : q ≠ 0)
    (hq2 : ¬BANK_MAX_ITEM_QUANTITY < q) (hlen : ¬MAX_ITEMS ≤ a.items.length) :
    service_store_item a n q =
      (account_add_history
        { a with items := a.items ++ [{ name := n, quantity := q }] }
        "Item Stored" (q : ℚ), none) := by
  unfold service_store_item
  rw [if_neg hq1, if_neg hq2, hf]
  dsimp only
  rw [if_neg hlen]
  unfold store_into_slot
  have hcap : ¬(BANK_MAX_ITEM_QUANTITY <
      item_quantity_at (a.items ++ [{ name := n, quantity := 0 }])
        a.items.length + q) := by
    rw [item_quantity_at_append]
    have hq2n : ¬(999 < q) := hq2
    show ¬(999 < 0 + q)
    omega
  rw [if_neg hcap, update_quantity_at_append]
  dsimp only
  rw [Nat.zero_add]

/-- C4 counterexample: no account, brand-new item name and quantity passing
the earlier gates make service_store_item fail, so in particular no failed
store of a brand-new item ever increments item_count. -/
theorem claim_C4_counterexample :
    ¬∃ (a : Account) (n : String) (q : Nat),
      account_find_item a n = none ∧ 1 ≤ q ∧ q ≤ BANK_MAX_ITEM_QUANTITY ∧
      a.items.length < MAX_ITEMS ∧ (service_store_item a n q).2 ≠ none := by
  rintro ⟨a, n, q, hf, hq1, hq2, hlen, hfail⟩
  apply hfail
  rw [service_store_item_new_success a n q hf (by omega) (not_lt.mpr hq2)
    (not_le.mpr hlen)]

/-- C4 (amended): for a brand-new item name with a quantity that passes the
earlier gates, the total-quantity check can never fire: the store succeeds
and appends the new slot with the requested quantity, so item_count grows
only as part of a successful store and no slot is consumed by a failure. -/
theorem claim_C4 (a : Account) (n : String) (q : Nat)
    (hf : account_find_item a n = none) (hq1 : 1 ≤ q)
    (hq2 : q ≤ BANK_MAX_ITEM_QUANTITY) (hlen : a.items.length < MAX_ITEMS) :
    (service_store_item a n q).2 = none ∧
    (service_store_item a n q).1.items =
      a.items ++ [{ name := n, quantity := q }] := by
  rw [service_store_item_new_success a n q hf (by omega) (not_lt.mpr hq2)
    (not_le.mpr hlen)]
  constructor
  · rfl
  · dsimp only
    rw [account_add_history_items]

theorem claim_C4_witness :
    (service_store_item (account_reset "W" 0) "Sword" 5).2 = none ∧
    (service_store_item (account_reset "W" 0) "Sword" 5).1.items =
      (account_reset "W" 0).items ++ [{ name := "Sword", quantity := 5 }] :=
  claim_C4 (account_reset "W" 0) "Sword" 5 (by decide) (by decide) (by decide)
    (by decide)

/-- Deposit reports the daily-limit error exactly when the amount gate
passes and the daily gate fires. -/
theorem service_deposit_daily_error_iff (s : BankingService) (a : Account)
    (x : ℚ) :
    (service_deposit s a x).2 = some EconError.dailyLimitExceeded ↔
      enforce_amount x = none ∧
        enforce_daily s a x = some EconError.dailyLimitExceeded := by
  cases hEA : enforce_amount x with
  | some e =>
    rw [service_deposit_fail_amount s a x e hEA]
    refine iff_of_false ?_ ?_
    · intro hc
      have he : e = EconError.dailyLimitExceeded := Option.some_injective _ hc
      rcases enforce_amount_some x e hEA with rfl | rfl <;> cases he
    · rintro ⟨h1, _⟩
      exact Option.noConfusion h1
  | none =>
    cases hED : enforce_daily s a x with
    | some e =>
      have he := enforce_daily_some s a x e hED
      subst he
      rw [service_deposit_fail_daily s a x _ hEA hED]
      exact iff_of_true rfl ⟨rfl, rfl⟩
    | none =>
      refine iff_of_false ?_ ?_
      · cases hF : apply_fee s x s.deposit_fee with
        | none =>
          rw [service_deposit_fail_fee s a x hEA hED hF]
          intro hc
          exact EconError.noConfusion (Option.some_injective _ hc)
        | some amt =>
          rw [service_deposit_success s a x amt hEA hED hF]
          intro hc
          exact Option.noConfusion hc
      · rintro ⟨_, h2⟩
        exact Option.noConfusion h2

/-- Withdrawal reports the daily-limit error exactly when the amount gate
passes and the daily gate fires. -/
theorem service_withdraw_daily_error_iff (s : BankingService) (a : Account)
    (x : ℚ) :
    (service_withdraw s a x).2 = some EconError.dailyLimitExceeded ↔
      enforce_amount x = none ∧
        enforce_daily s a x = some EconError.dailyLimitExceeded := by
  cases hEA : enforce_amount x with
  | some e =>
    rw [service_withdraw_fail_amount s a x e hEA]
    refine iff_of_false ?_ ?_
    · intro hc
      have he : e = EconError.dailyLimitExceeded := Option.some_injective _ hc
      rcases enforce_amount_some x e hEA with rfl | rfl <;> cases he
    · rintro ⟨h1, _⟩
      exact Option.noConfusion h1
  | none =>
    cases hED : enforce_daily s a x with
    | some e =>
      have he := enforce_daily_some s a x e hED
      subst he
      rw [service_withdraw_fail_daily s a x _ hEA hED]
      exact iff_of_true rfl ⟨rfl, rfl⟩
    | none =>
      refine iff_of_false ?_ ?_
      · cases hF : apply_fee s x s.withdrawal_fee with
        | none =>
          rw [service_withdraw_fail_fee s a x hEA hED hF]
          intro hc
          exact EconError.noConfusion (Option.some_injective _ hc)
        | some amt =>
          by_cases hb : a.balance < amt
          · rw [service_withdraw_fail_balance s a x amt hEA hED hF hb]
            intro hc
            exact EconError.noConfusion (Option.some_injective _ hc)
          · rw [service_withdraw_success s a x amt hEA hED hF hb]
            intro hc
            exact Option.noConfusion hc
      · rintro ⟨_, h2⟩
        exact Option.noConfusion h2

/-- Transfer reports the daily-limit error exactly when the amount gate
passes and the sender daily gate fires. -/
theorem service_transfer_daily_error_iff (s : BankingService) (src dst : Account)
    (x : ℚ) :
    (service_transfer s src dst x).2 = some EconError.dailyLimitExceeded ↔
      enforce_amount x = none ∧
        enforce_daily s src x = some EconError.dailyLimitExceeded := by
  cases hEA : enforce_amount x with
  | some e =>
    rw [service_transfer_fail_amount s src dst x e hEA]
    refine iff_of_false ?_ ?_
    · intro hc
      have he : e = EconError.dailyLimitExceeded := Option.some_injective _ hc
      rcases enforce_amount_some x e hEA with rfl | rfl <;> cases he
    · rintro ⟨h1, _⟩
      exact Option.noConfusion h1
  | none =>
    cases hED : enforce_daily s src x with
    | some e =>
      have he := enforce_daily_some s src x e hED
      subst he
      rw [service_transfer_fail_daily s src dst x _ hEA hED]
      exact iff_of_true rfl ⟨rfl, rfl⟩
    | none =>
      refine iff_of_false ?_ ?_
      · by_cases hb : src.balance < x
        · rw [service_transfer_fail_balance s src dst x hEA hED hb]
          intro hc
          exact EconError.noConfusion (Option.some_injective _ hc)
        · by_cases hfee : s.transfer_fee > 0 ∧
              x - s.transfer_fee < BANK_MIN_TRANSACTION
          · rw [service_transfer_fail_fee s src dst x hEA hED hb hfee]
            intro hc
            exact EconError.noConfusion (Option.some_injective _ hc)
          · rw [service_transfer_success s src dst x hEA hED hb hfee]
            intro hc
            exact Option.noConfusion hc
      · rintro ⟨_, h2⟩
        exact Option.noConfusion h2

/-- A successful deposit raises the daily total by the requested (pre-fee)
amount. -/
theorem service_deposit_success_daily (s : BankingService) (a : Account) (x : ℚ)
    (h : (service_deposit s a x).2 = none) :
    (service_deposit s a x).1.daily_total = a.daily_total + x := by
  cases hEA : enforce_amount x with
  | some e =>
    rw [service_deposit_fail_amount s a x e hEA] at h
    exact Option.noConfusion h
  | none =>
    cases hED : enforce_daily s a x with
    | some e =>
      rw [service_deposit_fail_daily s a x e hEA hED] at h
      exact Option.noConfusion h
    | none =>
      cases hF : apply_fee s x s.deposit_fee with
      | none =>
        rw [service_deposit_fail_fee s a x hEA hED hF] at h
        exact Option.noConfusion h
      | some amt =>
        rw [service_deposit_success s a x amt hEA hED hF]
        dsimp only
        rw [account_add_history_daily]

/-- A successful withdrawal raises the daily total by the requested
(pre-fee) amount. -/
theorem service_withdraw_success_daily (s : BankingService) (a : Account) (x : ℚ)
    (h : (service_withdraw s a x).2 = none) :
    (service_withdraw s a x).1.daily_total = a.daily_total + x := by
  cases hEA : enforce_amount x with
  | some e =>
    rw [service_withdraw_fail_amount s a x e hEA] at h
    exact Option.noConfusion h
  | none =>
    cases hED : enforce_daily s a x with
    | some e =>
      rw [service_withdraw_fail_daily s a x e hEA hED] at h
      exact Option.noConfusion h
    | none =>
      cases hF : apply_fee s x s.withdrawal_fee with
      | none =>
        rw [service_withdraw_fail_fee s a x hEA hED hF] at h
        exact Option.noConfusion h
      | some amt =>
        by_cases hb : a.balance < amt
        · rw [service_withdraw_fail_balance s a x amt hEA hED hF hb] at h
          exact Option.noConfusion h
        · rw [service_withdraw_success s a x amt hEA hED hF hb]
          dsimp only
          rw [account_add_history_daily]

/-- A successful transfer raises the sender daily total by the requested
amount. -/
theorem service_transfer_success_daily (s : BankingService) (src dst : Account)
    (x : ℚ) (h : (service_transfer s src dst x).2 = none) :
    (service_transfer s src dst x).1.1.daily_total = src.daily_total + x := by
  cases hEA : enforce_amount x with
  | some e =>
    rw [service_transfer_fail_amount s src dst x e hEA] at h
    exact Option.noConfusion h
  | none =>
    cases hED : enforce_daily s src x with
    | some e =>
      rw [service_transfer_fail_daily s src dst x e hEA hED] at h
      exact Option.noConfusion h
    | none =>
      by_cases hb : src.balance < x
      · rw [service_transfer_fail_balance s src dst x hEA hED hb] at h
        exact Option.noConfusion h
      · by_cases hfee : s.transfer_fee > 0 ∧
            x - s.transfer_fee < BANK_MIN_TRANSACTION
        · rw [service_transfer_fail_fee s src dst x hEA hED hb hfee] at h
          exact Option.noConfusion h
        · rw [service_transfer_success s src dst x hEA hED hb hfee]
          dsimp only
          rw [account_add_history_daily]

/-- C5: the daily gate uses the configured limit when positive and the
default 25000 otherwise, and fires exactly when daily_total plus the
requested (pre-fee) amount exceeds it; deposit, withdraw and transfer
report that error exactly when the amount gate passes and the daily gate
fires; on success the daily total rises by the requested amount.  With a
limit of 100, a first deposit of 60 succeeds leaving daily_total 60 and a
second deposit of 60 fails with the daily-limit error leaving daily_total
at 60. -/
theorem claim_C5 (s : BankingService) (a b : Account) (x : ℚ) :
    (enforce_daily s a x = some EconError.dailyLimitExceeded ↔
      a.daily_total + x >
        (if s.daily_limit > 0 then s.daily_limit else BANK_MAX_DAILY_TOTAL)) ∧
    ((service_deposit s a x).2 = some EconError.dailyLimitExceeded ↔
      enforce_amount x = none ∧
        enforce_daily s a x = some EconError.dailyLimitExceeded) ∧
    ((service_withdraw s a x).2 = some EconError.dailyLimitExceeded ↔
      enforce_amount x = none ∧
        enforce_daily s a x = some EconError.dailyLimitExceeded) ∧
    ((service_transfer s a b x).2 = some EconError.dailyLimitExceeded ↔
      enforce_amount x = none ∧
        enforce_daily s a x = some EconError.dailyLimitExceeded) ∧
    ((service_deposit s a x).2 = none →
      (service_deposit s a x).1.daily_total = a.daily_total + x) ∧
    ((service_withdraw s a x).2 = none →
      (service_withdraw s a x).1.daily_total = a.daily_total + x) ∧
    ((service_transfer s a b x).2 = none →
      (service_transfer s a b x).1.1.daily_total = a.daily_total + x) ∧
    ((service_deposit limService limAcct 60).2 = none ∧
      (service_deposit limService limAcct 60).1.daily_total = 60 ∧
      (service_deposit limService (service_deposit limService limAcct 60).1 60).2 =
        some EconError.dailyLimitExceeded ∧
      (service_deposit limService
          (service_deposit limService limAcct 60).1 60).1.daily_total = 60) :=
  ⟨enforce_daily_some_iff s a x,
   service_deposit_daily_error_iff s a x,
   service_withdraw_daily_error_iff s a x,
   service_transfer_daily_error_iff s a b x,
   service_deposit_success_daily s a x,
   service_withdraw_success_daily s a x,
   service_transfer_success_daily s a b x,
   by
     refine ⟨?_, ?_, ?_, ?_⟩ <;>
       norm_num [service_deposit, enforce_amount, enforce_daily, apply_fee,
         account_add_history, limService, limAcct, account_reset,
         BANK_MIN_TRANSACTION, BANK_MAX_TRANSACTION, BANK_MAX_DAILY_TOTAL,
         MAX_TRANSACTION_HISTORY]⟩

theorem claim_C5_witness :
    (service_deposit limService limAcct 60).1.daily_total =
      limAcct.daily_total + 60 :=
  (claim_C5 limService limAcct limAcct 60).2.2.2.2.1 (by
    norm_num [service_deposit, enforce_amount, enforce_daily, apply_fee,
      account_add_history, limService, limAcct, account_reset,
      BANK_MIN_TRANSACTION, BANK_MAX_TRANSACTION, BANK_MAX_DAILY_TOTAL,
      MAX_TRANSACTION_HISTORY])

/-- C6 counterexample: with a positive deposit fee (0.2) and an amount (0.5)
whose post-fee value falls below the minimum, the deposit fails with the
below-minimum range error, not with the fee-rejection error the claim
demands for every such call. -/
theorem claim_C6_counterexample :
    0 < feeService.deposit_fee ∧
    (1 / 2 : ℚ) - feeService.deposit_fee < BANK_MIN_TRANSACTION ∧
    (service_deposit feeService feeAcct (1 / 2)).2 =
      some EconError.belowMinimum ∧
    (service_deposit feeService feeAcct (1 / 2)).2 ≠
      some EconError.feeRejected := by
  have hres : (service_deposit feeService feeAcct (1 / 2)).2 =
      some EconError.belowMinimum := by
    norm_num [service_deposit, enforce_amount, enforce_daily, apply_fee,
      feeService, feeAcct, account_reset, BANK_MIN_TRANSACTION,
      BANK_MAX_TRANSACTION, BANK_MAX_DAILY_TOTAL]
  refine ⟨by norm_num [feeService],
    by norm_num [feeService, BANK_MIN_TRANSACTION], hres, ?_⟩
  rw [hres]
  intro hc
  exact EconError.noConfusion (Option.some_injective _ hc)

/-- C6 (amended): provided the amount passes the range gate and the daily
gate, a positive fee whose post-fee amount falls below the minimum makes
deposit and withdrawal fail with the fee-rejection error and leaves the
account unchanged; a non-positive fee passes the amount through unchanged.
Concretely, with withdrawal fee 5, withdrawing 5.0 fails with the
fee-rejection error and the balance is unchanged. -/
theorem claim_C6 (s : BankingService) (a : Account) (x fee : ℚ) :
    (0 < s.deposit_fee → x - s.deposit_fee < BANK_MIN_TRANSACTION →
      enforce_amount x = none → enforce_daily s a x = none →
      (service_deposit s a x).2 = some EconError.feeRejected ∧
        (service_deposit s a x).1 = a) ∧
    (0 < s.withdrawal_fee → x - s.withdrawal_fee < BANK_MIN_TRANSACTION →
      enforce_amount x = none → enforce_daily s a x = none →
      (service_withdraw s a x).2 = some EconError.feeRejected ∧
        (service_withdraw s a x).1 = a) ∧
    (fee ≤ 0 → apply_fee s x fee = some x) ∧
    (feeService.withdrawal_fee = 5 ∧
      (service_withdraw feeService feeAcct 5).2 = some EconError.feeRejected ∧
      (service_withdraw feeService feeAcct 5).1 = feeAcct) := by
  refine ⟨?_, ?_, apply_fee_nonpos s x fee, by norm_num [feeService], ?_, ?_⟩
  · intro hfee hlow hEA hED
    have hF : apply_fee s x s.deposit_fee = none :=
      (apply_fee_none_iff s x s.deposit_fee).mpr ⟨hfee, hlow⟩
    rw [service_deposit_fail_fee s a x hEA hED hF]
    exact ⟨rfl, rfl⟩
  · intro hfee hlow hEA hED
    have hF : apply_fee s x s.withdrawal_fee = none :=
      (apply_fee_none_iff s x s.withdrawal_fee).mpr ⟨hfee, hlow⟩
    rw [service_withdraw_fail_fee s a x hEA hED hF]
    exact ⟨rfl, rfl⟩
  · norm_num [service_withdraw, enforce_amount, enforce_daily, apply_fee,
      feeService, feeAcct, account_reset, BANK_MIN_TRANSACTION,
      BANK_MAX_TRANSACTION, BANK_MAX_DAILY_TOTAL]
  · norm_num [service_withdraw, enforce_amount, enforce_daily, apply_fee,
      feeService, feeAcct, account_reset, BANK_MIN_TRANSACTION,
      BANK_MAX_TRANSACTION, BANK_MAX_DAILY_TOTAL]

theorem claim_C6_witness :
    (service_withdraw feeService feeAcct 5).2 = some EconError.feeRejected ∧
      (service_withdraw feeService feeAcct 5).1 = feeAcct :=
  (claim_C6 feeService feeAcct 5 0).2.1
    (by norm_num [feeService])
    (by norm_num [feeService, BANK_MIN_TRANSACTION])
    (by norm_num [enforce_amount, BANK_MIN_TRANSACTION, BANK_MAX_TRANSACTION])
    (by norm_num [enforce_daily, feeService, feeAcct, account_reset,
      BANK_MAX_DAILY_TOTAL])

/-- One history append keeps the entry count within the cap. -/
theorem account_add_history_length_le (a : Account) (d : String) (x : ℚ)
    (h : a.history.length ≤ MAX_TRANSACTION_HISTORY) :
    (account_add_history a d x).history.length ≤ MAX_TRANSACTION_HISTORY := by
  have h' : a.history.length ≤ 64 := h
  simp only [account_add_history]
  split_ifs with h1
  · have h1' : a.history.length < 64 := h1
    show (a.history ++ [TransactionEntry.mk d x a.balance]).length ≤ 64
    rw [List.length_append]
    simp only [List.length_cons, List.length_nil]
    omega
  · show (a.history.drop 1 ++ [TransactionEntry.mk d x a.balance]).length ≤ 64
    rw [List.length_append, List.length_drop]
    simp only [List.length_cons, List.length_nil]
    omega

/-- Appending to a full history drops exactly the oldest entry and appends
the new one at the end. -/
theorem account_add_history_full (a : Account) (d : String) (x : ℚ)
    (h : a.history.length = MAX_TRANSACTION_HISTORY) :
    (account_add_history a d x).history =
      a.history.drop 1 ++
        [{ description := d, amount := x, resulting_balance := a.balance }] := by
  have hcond : ¬(a.history.length < MAX_TRANSACTION_HISTORY) := by
    rw [h]
    exact Nat.lt_irrefl _
  simp only [account_add_history]
  rw [if_neg hcond]

/-- Folding any sequence of appends keeps the history within the cap. -/
theorem fold_add_history_length_le (entries : List (String × ℚ)) (a : Account)
    (h : a.history.length ≤ MAX_TRANSACTION_HISTORY) :
    (entries.foldl (fun acc e => account_add_history acc e.1 e.2)
        a).history.length ≤ MAX_TRANSACTION_HISTORY := by
  induction entries generalizing a with
  | nil => exact h
  | cons e rest ih =>
    exact ih (account_add_history a e.1 e.2)
      (account_add_history_length_le a e.1 e.2 h)

/-- C7: starting from a reset account, any sequence of history appends keeps
history_count at or below 64; appending to a full history evicts exactly the
single oldest entry and preserves the relative order of the remaining
entries (the new entry goes to the back). -/
theorem claim_C7 :
    (∀ (owner : String) (init : ℚ) (entries : List (String × ℚ)),
      (entries.foldl (fun acc e => account_add_history acc e.1 e.2)
          (account_reset owner init)).history.length ≤ MAX_TRANSACTION_HISTORY) ∧
    (∀ (a : Account) (d : String) (x : ℚ),
      a.history.length = MAX_TRANSACTION_HISTORY →
      (account_add_history a d x).history =
        a.history.drop 1 ++
          [{ description := d, amount := x, resulting_balance := a.balance }]) :=
  ⟨fun owner init entries =>
    fold_add_history_length_le entries (account_reset owner init)
      (by simp [account_reset, MAX_TRANSACTION_HISTORY]),
   fun a d x h => account_add_history_full a d x h⟩

theorem claim_C7_witness :
    (account_add_history fullHistoryAccount "Overflow" 1).history =
      fullHistoryAccount.history.drop 1 ++
        [{ description := "Overflow", amount := 1,
           resulting_balance := fullHistoryAccount.balance }] :=
  claim_C7.2 fullHistoryAccount "Overflow" 1 (by
    simp [fullHistoryAccount, MAX_TRANSACTION_HISTORY])

/-- Invest succeeds exactly on positive amounts within the balance. -/
theorem service_invest_none_iff (s : BankingService) (a : Account) (x : ℚ) :
    (service_invest s a x).2 = none ↔ 0 < x ∧ x ≤ a.balance := by
  unfold service_invest
  split_ifs with h1 h2
  · exact iff_of_false (by simp) (fun hc => absurd hc.1 (not_lt.mpr h1))
  · exact iff_of_false (by simp) (fun hc => absurd hc.2 (not_le.mpr h2))
  · exact iff_of_true rfl ⟨not_le.mp h1, not_lt.mp h2⟩

/-- A successful investment moves exactly the amount from the cash balance
to the investment balance. -/
theorem service_invest_success_effects (s : BankingService) (a : Account)
    (x : ℚ) (h : (service_invest s a x).2 = none) :
    (service_invest s a x).1.balance = a.balance - x ∧
    (service_invest s a x).1.investment_balance = a.investment_balance + x := by
  unfold service_invest at h ⊢
  split_ifs at h ⊢ with h1 h2
  dsimp only
  constructor
  · rw [account_add_history_balance]
  · rw [account_add_history_investment]

/-- C8: invest succeeds iff the amount is positive and within the balance —
it is not subject to the per-transaction range or the daily limit (0.5 and
50000.0 both succeed given sufficient balance, even with a daily limit of
1) — and on success it moves the amount from balance to
investment_balance. -/
theorem claim_C8 (s : BankingService) (a : Account) (x : ℚ) :
    ((service_invest s a x).2 = none ↔ 0 < x ∧ x ≤ a.balance) ∧
    ((service_invest s a x).2 = none →
      (service_invest s a x).1.balance = a.balance - x ∧
      (service_invest s a x).1.investment_balance =
        a.investment_balance + x) ∧
    (service_invest invService (account_reset "Inv" 1) (1 / 2)).2 = none ∧
    (service_invest invService (account_reset "Inv" 50000) 50000).2 = none :=
  ⟨service_invest_none_iff s a x, service_invest_success_effects s a x,
   by norm_num [service_invest, invService, account_reset,
     account_add_history, MAX_TRANSACTION_HISTORY],
   by norm_num [service_invest, invService, account_reset,
     account_add_history, MAX_TRANSACTION_HISTORY]⟩

theorem claim_C8_witness :
    (service_invest invService (account_reset "Inv" 1) (1 / 2)).1.balance =
      (account_reset "Inv" 1).balance - 1 / 2 ∧
    (service_invest invService
        (account_reset "Inv" 1) (1 / 2)).1.investment_balance =
      (account_reset "Inv" 1).investment_balance + 1 / 2 :=
  (claim_C8 invService (account_reset "Inv" 1) (1 / 2)).2.1 (by
    norm_num [service_invest, invService, account_reset, account_add_history,
      MAX_TRANSACTION_HISTORY])

/-- C9: the investment round trip: from balance 500, investing 100 leaves
balance 400 and investment_balance 100; applying the yield at rate 0.1
leaves investment_balance 110; withdrawing 110 leaves investment_balance 0
and balance 510. -/
theorem claim_C9 :
    (service_invest roundService roundAcct 100).2 = none ∧
    roundInvested.balance = 400 ∧
    roundInvested.investment_balance = 100 ∧
    roundYielded.investment_balance = 110 ∧
    (service_withdraw_investment roundService roundYielded 110).2 = none ∧
    roundFinal.investment_balance = 0 ∧
    roundFinal.balance = 510 := by
  refine ⟨?_, ?_, ?_, ?_, ?_, ?_, ?_⟩ <;>
    norm_num [service_invest, service_apply_investment_yield,
      service_withdraw_investment, account_add_history, roundService,
      roundAcct, roundInvested, roundYielded, roundFinal, account_reset,
      MAX_TRANSACTION_HISTORY]

/-- C10: invest, investment withdrawal, yield application and both item
operations leave daily_total unchanged; the daily reset zeroes daily_total
and changes nothing else; item operations leave the cash balance
unchanged. -/
theorem claim_C10 (s : BankingService) (a : Account) (x : ℚ) (n : String)
    (q : Nat) :
    (service_invest s a x).1.daily_total = a.daily_total ∧
    (service_withdraw_investment s a x).1.daily_total = a.daily_total ∧
    (service_apply_investment_yield s a).daily_total = a.daily_total ∧
    (service_store_item a n q).1.daily_total = a.daily_total ∧
    (service_retrieve_item a n q).1.daily_total = a.daily_total ∧
    (service_reset_daily a).daily_total = 0 ∧
    (service_reset_daily a).balance = a.balance ∧
    (service_reset_daily a).investment_balance = a.investment_balance ∧
    (service_reset_daily a).owner = a.owner ∧
    (service_reset_daily a).items = a.items ∧
    (service_reset_daily a).history = a.history ∧
    (service_store_item a n q).1.balance = a.balance ∧
    (service_retrieve_item a n q).1.balance = a.balance :=
  ⟨service_invest_daily s a x, service_withdraw_investment_daily s a x,
   service_apply_investment_yield_daily s a, service_store_item_daily a n q,
   service_retrieve_item_daily a n q, rfl, rfl, rfl, rfl, rfl, rfl,
   service_store_item_balance a n q, service_retrieve_item_balance a n q⟩
